import Mathlib

/-!
Verification of the strand-bias statistics engine of the `resolveS` repository.

The repository contains three Python scripts:
  * `check_strand.py` (namespace `CheckStrand`): full metrics engine plus the
    classifier variant taking an unsigned relative difference and an F/R ratio;
  * `bin/check_strand.py` (namespace `BinCheckStrand`): reduced metrics engine
    plus the classifier variant taking a signed relative difference;
  * `bin/check_strand_step1M_withCount.py` (namespace `Step1MWithCount`):
    count-based chi-square test.

Python floats are idealised as real numbers; the special values `nan` and
`+inf` (the only non-finite values the programs produce) are modelled by the
`PFloat` type, whose comparison operations mirror IEEE semantics: every
comparison involving `nan` is false.
-/

noncomputable section

open Real

/-- Model of a Python float value as produced by these programs: either NaN,
positive infinity, or a finite value idealised as a real number. -/
inductive PFloat where
  | nan : PFloat
  | inf : PFloat
  | val (x : ℝ) : PFloat
deriving Inhabited

namespace PFloat

/-- Python `x <= y` on floats: any comparison with NaN is false; `inf <= inf`
is true; a finite value is below `inf`. -/
def le : PFloat → PFloat → Bool
  | .nan, _ => false
  | _, .nan => false
  | .inf, .inf => true
  | .inf, .val _ => false
  | .val _, .inf => true
  | .val a, .val b => decide (a ≤ b)

/-- Python `x < y` on floats: any comparison with NaN is false. -/
def lt : PFloat → PFloat → Bool
  | .nan, _ => false
  | _, .nan => false
  | .inf, .inf => false
  | .inf, .val _ => false
  | .val _, .inf => true
  | .val a, .val b => decide (a < b)

/-- Python `x > y` on floats. -/
def gt (x y : PFloat) : Bool := PFloat.lt y x

/-- Python `abs` on floats: `abs(nan) = nan`, `abs(inf) = inf`. -/
def abs : PFloat → PFloat
  | .nan => .nan
  | .inf => .inf
  | .val a => .val |a|

end PFloat

/-- The complementary error function `erfc x = (2/√π) ∫_x^∞ exp (-t²) dt`,
the meaning of Python's `math.erfc`. -/
def erfc (x : ℝ) : ℝ :=
  2 / Real.sqrt Real.pi * ∫ t in Set.Ioi x, Real.exp (-(t ^ 2))

/-- Python's `math.lgamma` on the positive reals (the only arguments these
programs use): the logarithm of the Gamma function. -/
def lgamma (x : ℝ) : ℝ := Real.log (Real.Gamma x)

/-! ## `src/check_strand.py` -/

namespace CheckStrand

/-- `compute_proportions` of `check_strand.py`: returns
`(fwd_ratio, rev_ratio, f2r_ratio)`; `(0.0, 0.0, nan)` when the total is 0,
and `f2r_ratio = inf` when `rev = 0 < fwd`. -/
def compute_proportions (fwd rev : ℕ) : ℝ × ℝ × PFloat :=
  if fwd + rev = 0 then (0, 0, .nan)
  else
    ((fwd : ℝ) / ((fwd : ℝ) + (rev : ℝ)),
     (rev : ℝ) / ((fwd : ℝ) + (rev : ℝ)),
     if 0 < rev then .val ((fwd : ℝ) / (rev : ℝ)) else .inf)

/-- `compute_f2r_ratio_logfc` of `check_strand.py`: pseudocounted log2 fold
change `log2 ((fwd + c) / (rev + c))`; the program calls it with `c = 0.5`. -/
def compute_f2r_ratio_logfc (fwd rev : ℕ) (pseudo_count : ℝ) : ℝ :=
  Real.logb 2 (((fwd : ℝ) + pseudo_count) / ((rev : ℝ) + pseudo_count))

/-- `compute_relative_difference` of `check_strand.py` (unsigned):
`|fwd - rev| / (total / 2)`, NaN when the total is 0. -/
def compute_relative_difference (fwd rev : ℕ) : PFloat :=
  if fwd + rev = 0 then .nan
  else .val (|(fwd : ℝ) - (rev : ℝ)| / (((fwd : ℝ) + (rev : ℝ)) / 2))

/-- The chi-square statistic of `compute_chi_test` in `check_strand.py`:
`(fwd - e)²/e + (rev - e)²/e` with `e = total / 2`. -/
def chi2_value (fwd rev : ℕ) : ℝ :=
  ((fwd : ℝ) - ((fwd : ℝ) + (rev : ℝ)) / 2) ^ 2 / (((fwd : ℝ) + (rev : ℝ)) / 2) +
    ((rev : ℝ) - ((fwd : ℝ) + (rev : ℝ)) / 2) ^ 2 / (((fwd : ℝ) + (rev : ℝ)) / 2)

/-- `compute_chi_test` of `check_strand.py`: `(chi2, p)` with
`p = erfc (sqrt (chi2 / 2))`; `(nan, nan)` when the total is 0. -/
def compute_chi_test (fwd rev : ℕ) : PFloat × PFloat :=
  if fwd + rev = 0 then (.nan, .nan)
  else (.val (chi2_value fwd rev), .val (erfc (Real.sqrt (chi2_value fwd rev / 2))))

/-- `compute_cohens_h` of `check_strand.py`:
`2·asin (sqrt (fwd/total)) - 2·asin (sqrt 0.5)`, NaN when the total is 0. -/
def compute_cohens_h (fwd rev : ℕ) : PFloat :=
  if fwd + rev = 0 then .nan
  else .val (2 * Real.arcsin (Real.sqrt ((fwd : ℝ) / ((fwd : ℝ) + (rev : ℝ)))) -
    2 * Real.arcsin (Real.sqrt 0.5))

/-- `compute_cramers_v` of `check_strand.py`: `sqrt (chi2 / total)` reusing the
chi-square statistic, NaN when the total is 0. -/
def compute_cramers_v (fwd rev : ℕ) : PFloat :=
  if fwd + rev = 0 then .nan
  else .val (Real.sqrt (chi2_value fwd rev / ((fwd : ℝ) + (rev : ℝ))))

/-- `compute_bayes_factor` of `check_strand.py`: the Savage–Dickey BF01,
computed in log space (`a = fwd + 1`, `b = rev + 1`,
`log_beta = lgamma a + lgamma b - lgamma (a + b)`,
`bf01 = exp ((a + b - 2)·log 0.5 - log_beta - log 1)`); NaN when the total
is 0. -/
def compute_bayes_factor (fwd rev : ℕ) : PFloat :=
  if fwd + rev = 0 then .nan
  else
    let prior_density : ℝ := 1.0
    let a : ℝ := (fwd : ℝ) + 1
    let b : ℝ := (rev : ℝ) + 1
    let log_beta : ℝ := lgamma a + lgamma b - lgamma (a + b)
    let log_posterior_density : ℝ := (a + b - 2) * Real.log 0.5 - log_beta
    let log_prior_density : ℝ := Real.log prior_density
    .val (Real.exp (log_posterior_density - log_prior_density))

/-- `compute_effect_size_epsilon` of `check_strand.py`:
`|p1 - 0.5| / sqrt (p1·(1-p1) + 0.25)`, with `0.0` sentinels for a zero total
and for a zero denominator. -/
def compute_effect_size_epsilon (fwd rev : ℕ) : ℝ :=
  if fwd + rev = 0 then 0
  else
    let p1 : ℝ := (fwd : ℝ) / ((fwd : ℝ) + (rev : ℝ))
    let p2 : ℝ := 0.5
    let numerator := |p1 - p2|
    let denominator := Real.sqrt (p1 * (1 - p1) + p2 * (1 - p2))
    if denominator = 0 then 0 else numerator / denominator

/-- `compute_hellinger_distance` of `check_strand.py`: the Hellinger distance
between `(p_fwd, p_rev)` and `(0.5, 0.5)`, `0.0` when the total is 0. -/
def compute_hellinger_distance (fwd rev : ℕ) : ℝ :=
  if fwd + rev = 0 then 0
  else
    let p_fwd : ℝ := (fwd : ℝ) / ((fwd : ℝ) + (rev : ℝ))
    let p_rev : ℝ := (rev : ℝ) / ((fwd : ℝ) + (rev : ℝ))
    Real.sqrt (0.5 * ((Real.sqrt p_fwd - Real.sqrt 0.5) ^ 2 +
      (Real.sqrt p_rev - Real.sqrt 0.5) ^ 2))

/-- `compute_normalized_entropy` of `check_strand.py`: Shannon entropy in bits
of the proportions, each clamped below by `1e-10`, divided by the maximal
entropy `1.0`; `0.0` when the total is 0. -/
def compute_normalized_entropy (fwd rev : ℕ) : ℝ :=
  if fwd + rev = 0 then 0
  else
    let p_fwd : ℝ := max ((fwd : ℝ) / ((fwd : ℝ) + (rev : ℝ))) 1e-10
    let p_rev : ℝ := max ((rev : ℝ) / ((fwd : ℝ) + (rev : ℝ))) 1e-10
    (-(p_fwd * Real.logb 2 p_fwd) - p_rev * Real.logb 2 p_rev) / 1

/-- `determine_strandedness` of `check_strand.py` (classifier variant B):
total gate at 3000, then `relative_diff <= 1` gives `fr-unstranded`, then
`f2r_ratio > 1` decides the orientation. -/
def determine_strandedness (total : ℤ) (relative_diff f2r_ratio : PFloat) : String :=
  if total ≤ 3000 then "insufficient-data"
  else if relative_diff.le (.val 1) then "fr-unstranded"
  else if f2r_ratio.gt (.val 1) then "fr-firststrand"
  else "fr-secondstrand"

/-- The statistics bundle built by `analyze_strand_bias` in `check_strand.py`. -/
structure StrandStats where
  filename : String
  strandedness : String
  fwd : ℕ
  rev : ℕ
  total : ℕ
  fwd_ratio : ℝ
  rev_ratio : ℝ
  f2r_ratio : PFloat
  log2_f2r : ℝ
  relative_diff : PFloat
  chi2 : PFloat
  p_value : PFloat
  cohens_h : PFloat
  cramers_v : PFloat
  bayes_factor : PFloat
  epsilon : ℝ
  hellinger : ℝ
  entropy : ℝ

/-- `analyze_strand_bias` of `check_strand.py`: computes every metric and the
variant-B classification from a `(fwd, rev)` pair. -/
def analyze_strand_bias (fwd rev : ℕ) (name : String) : StrandStats :=
  let total := fwd + rev
  let p := compute_proportions fwd rev
  let ct := compute_chi_test fwd rev
  { filename := name
    fwd := fwd
    rev := rev
    total := total
    fwd_ratio := p.1
    rev_ratio := p.2.1
    f2r_ratio := p.2.2
    log2_f2r := compute_f2r_ratio_logfc fwd rev 0.5
    relative_diff := compute_relative_difference fwd rev
    chi2 := ct.1
    p_value := ct.2
    cohens_h := compute_cohens_h fwd rev
    cramers_v := compute_cramers_v fwd rev
    bayes_factor := compute_bayes_factor fwd rev
    epsilon := compute_effect_size_epsilon fwd rev
    hellinger := compute_hellinger_distance fwd rev
    entropy := compute_normalized_entropy fwd rev
    strandedness := determine_strandedness (total : ℤ)
      (compute_relative_difference fwd rev) p.2.2 }

end CheckStrand

/-! ## `src/bin/check_strand.py` -/

namespace BinCheckStrand

/-- `compute_proportions` of `bin/check_strand.py`: `(fwd_ratio, rev_ratio)`,
`(0.0, 0.0)` when the total is 0. -/
def compute_proportions (fwd rev : ℕ) : ℝ × ℝ :=
  if fwd + rev = 0 then (0, 0)
  else ((fwd : ℝ) / ((fwd : ℝ) + (rev : ℝ)), (rev : ℝ) / ((fwd : ℝ) + (rev : ℝ)))

/-- `compute_relative_difference` of `bin/check_strand.py` (signed):
`(fwd - rev) / (total / 2)`, NaN when the total is 0. -/
def compute_relative_difference (fwd rev : ℕ) : PFloat :=
  if fwd + rev = 0 then .nan
  else .val (((fwd : ℝ) - (rev : ℝ)) / (((fwd : ℝ) + (rev : ℝ)) / 2))

/-- The chi-square statistic of `compute_chi_test` in `bin/check_strand.py`:
`(fwd - e)²/e + (rev - e)²/e` with `e = total / 2`. -/
def chi2_value (fwd rev : ℕ) : ℝ :=
  ((fwd : ℝ) - ((fwd : ℝ) + (rev : ℝ)) / 2) ^ 2 / (((fwd : ℝ) + (rev : ℝ)) / 2) +
    ((rev : ℝ) - ((fwd : ℝ) + (rev : ℝ)) / 2) ^ 2 / (((fwd : ℝ) + (rev : ℝ)) / 2)

/-- `compute_chi_test` of `bin/check_strand.py`: `(chi2, p)` with
`p = erfc (sqrt (chi2 / 2))`; `(nan, nan)` when the total is 0. -/
def compute_chi_test (fwd rev : ℕ) : PFloat × PFloat :=
  if fwd + rev = 0 then (.nan, .nan)
  else (.val (chi2_value fwd rev), .val (erfc (Real.sqrt (chi2_value fwd rev / 2))))

/-- `determine_strandedness` of `bin/check_strand.py` (classifier variant A):
total gate at 3000, then `abs relative_diff <= 0.07156908` gives
`fr-unstranded`, then the sign of `relative_diff` decides the orientation. -/
def determine_strandedness (total : ℤ) (relative_diff : PFloat) : String :=
  if total ≤ 3000 then "insufficient-data"
  else if relative_diff.abs.le (.val 0.07156908) then "fr-unstranded"
  else if relative_diff.gt (.val 0) then "fr-firststrand"
  else "fr-secondstrand"

/-- The statistics bundle built by `analyze_strand_bias` in
`bin/check_strand.py`. -/
structure StrandStats where
  filename : String
  strandedness : String
  fwd : ℕ
  rev : ℕ
  fwd_ratio : ℝ
  rev_ratio : ℝ
  relative_diff : PFloat
  chi2 : PFloat
  p_value : PFloat

/-- `analyze_strand_bias` of `bin/check_strand.py`: computes the reduced
metric set and the variant-A classification from a `(fwd, rev)` pair. -/
def analyze_strand_bias (fwd rev : ℕ) (name : String) : StrandStats :=
  let total := fwd + rev
  let p := compute_proportions fwd rev
  let ct := compute_chi_test fwd rev
  { filename := name
    fwd := fwd
    rev := rev
    fwd_ratio := p.1
    rev_ratio := p.2
    relative_diff := compute_relative_difference fwd rev
    chi2 := ct.1
    p_value := ct.2
    strandedness := determine_strandedness (total : ℤ)
      (compute_relative_difference fwd rev) }

end BinCheckStrand

/-! ## `src/bin/check_strand_step1M_withCount.py` -/

namespace Step1MWithCount

/-- `compute_chi2_test` of `bin/check_strand_step1M_withCount.py`: the same
chi-square test with the formula factored as
`((fwd - e)² + (rev - e)²) / e`; `(nan, nan)` when the total is 0. -/
def compute_chi2_test (fwd rev : ℕ) : PFloat × PFloat :=
  if fwd + rev = 0 then (.nan, .nan)
  else
    let expected : ℝ := ((fwd : ℝ) + (rev : ℝ)) / 2
    let chi2 : ℝ := (((fwd : ℝ) - expected) ^ 2 + ((rev : ℝ) - expected) ^ 2) / expected
    (.val chi2, .val (erfc (Real.sqrt (chi2 / 2))))

end Step1MWithCount

/-! ## Claims about the classifiers -/

/-- Claim C1: classifier variant A (signed relative difference,
`bin/check_strand.py`). For every integer `total` and real
`signed_relative_diff`: `insufficient-data` when `total ≤ 3000` (checked
first, for any diff value); otherwise `fr-unstranded` when
`|diff| ≤ 0.07156908`; otherwise `fr-firststrand` when `diff > 0`; otherwise
`fr-secondstrand`. In particular `total = 3001` with diff `0.08` gives
`fr-firststrand`, with diff `-0.08` gives `fr-secondstrand`, and
`total = 3000` with any diff gives `insufficient-data`. -/
theorem claim_C1 (total : ℤ) (d : ℝ) :
    (∀ df : PFloat, total ≤ 3000 →
      BinCheckStrand.determine_strandedness total df = "insufficient-data") ∧
    (3000 < total → |d| ≤ 0.07156908 →
      BinCheckStrand.determine_strandedness total (.val d) = "fr-unstranded") ∧
    (3000 < total → 0.07156908 < |d| → 0 < d →
      BinCheckStrand.determine_strandedness total (.val d) = "fr-firststrand") ∧
    (3000 < total → 0.07156908 < |d| → ¬ 0 < d →
      BinCheckStrand.determine_strandedness total (.val d) = "fr-secondstrand") ∧
    BinCheckStrand.determine_strandedness 3001 (.val 0.08) = "fr-firststrand" ∧
    BinCheckStrand.determine_strandedness 3001 (.val (-0.08)) = "fr-secondstrand" ∧
    BinCheckStrand.determine_strandedness 3000 (.val d) = "insufficient-data" := by
  refine ⟨fun df h => ?_, fun h1 h2 => ?_, fun h1 h2 h3 => ?_, fun h1 h2 h3 => ?_,
    ?_, ?_, ?_⟩
  · rw [BinCheckStrand.determine_strandedness, if_pos h]
  · simp [BinCheckStrand.determine_strandedness, PFloat.abs, PFloat.le,
      not_le.mpr h1, h2]
  · simp [BinCheckStrand.determine_strandedness, PFloat.abs, PFloat.le,
      PFloat.gt, PFloat.lt, not_le.mpr h1, not_le.mpr h2, h3]
  · simp [BinCheckStrand.determine_strandedness, PFloat.abs, PFloat.le,
      PFloat.gt, PFloat.lt, not_le.mpr h1, not_le.mpr h2, h3]
  · norm_num [BinCheckStrand.determine_strandedness, PFloat.abs, PFloat.le,
      PFloat.gt, PFloat.lt, abs_le]
  · norm_num [BinCheckStrand.determine_strandedness, PFloat.abs, PFloat.le,
      PFloat.gt, PFloat.lt, abs_le]
  · rw [BinCheckStrand.determine_strandedness, if_pos (by norm_num)]

/-- Witness for claim C1, evaluating variant A at `total = 3001`,
`diff = 0.01`. -/
theorem claim_C1_witness :
    (3000 : ℤ) < 3001 ∧ |(0.01 : ℝ)| ≤ 0.07156908 ∧
      BinCheckStrand.determine_strandedness 3001 (.val 0.01) = "fr-unstranded" :=
  ⟨by norm_num, by rw [abs_of_pos] <;> norm_num,
    (claim_C1 3001 0.01).2.1 (by norm_num) (by rw [abs_of_pos] <;> norm_num)⟩

/-- Claim C2: classifier variant B (unsigned relative difference plus F/R
ratio, `check_strand.py`). For every integer `total`, real
`unsigned_relative_diff` and ratio (a real, possibly `+inf`):
`insufficient-data` when `total ≤ 3000`; otherwise `fr-unstranded` when
`diff ≤ 1`; otherwise `fr-firststrand` when the ratio exceeds 1 (in
particular when it is `+inf`); otherwise `fr-secondstrand`. Concrete cases:
`total = 4000` with diff `0.5` gives `fr-unstranded`; diff `1.5` with ratio
`2.0` gives `fr-firststrand`; diff `1.5` with ratio `0.5` gives
`fr-secondstrand`. -/
theorem claim_C2 (total : ℤ) (d x : ℝ) :
    (∀ df fr : PFloat, total ≤ 3000 →
      CheckStrand.determine_strandedness total df fr = "insufficient-data") ∧
    (∀ fr : PFloat, 3000 < total → d ≤ 1 →
      CheckStrand.determine_strandedness total (.val d) fr = "fr-unstranded") ∧
    (3000 < total → 1 < d → 1 < x →
      CheckStrand.determine_strandedness total (.val d) (.val x) = "fr-firststrand") ∧
    (3000 < total → 1 < d →
      CheckStrand.determine_strandedness total (.val d) .inf = "fr-firststrand") ∧
    (3000 < total → 1 < d → x ≤ 1 →
      CheckStrand.determine_strandedness total (.val d) (.val x) = "fr-secondstrand") ∧
    (∀ fr : PFloat,
      CheckStrand.determine_strandedness 4000 (.val 0.5) fr = "fr-unstranded") ∧
    CheckStrand.determine_strandedness 4000 (.val 1.5) (.val 2.0) = "fr-firststrand" ∧
    CheckStrand.determine_strandedness 4000 (.val 1.5) (.val 0.5) = "fr-secondstrand" := by
  refine ⟨fun df fr h => ?_, fun fr h1 h2 => ?_, fun h1 h2 h3 => ?_,
    fun h1 h2 => ?_, fun h1 h2 h3 => ?_, fun fr => ?_, ?_, ?_⟩
  · rw [CheckStrand.determine_strandedness, if_pos h]
  · simp [CheckStrand.determine_strandedness, PFloat.le, not_le.mpr h1, h2]
  · simp [CheckStrand.determine_strandedness, PFloat.le, PFloat.gt, PFloat.lt,
      not_le.mpr h1, not_le.mpr h2, h3]
  · simp [CheckStrand.determine_strandedness, PFloat.le, PFloat.gt, PFloat.lt,
      not_le.mpr h1, not_le.mpr h2]
  · simp [CheckStrand.determine_strandedness, PFloat.le, PFloat.gt, PFloat.lt,
      not_le.mpr h1, not_le.mpr h2, not_lt.mpr h3]
  · norm_num [CheckStrand.determine_strandedness, PFloat.le]
  · norm_num [CheckStrand.determine_strandedness, PFloat.le, PFloat.gt, PFloat.lt]
  · norm_num [CheckStrand.determine_strandedness, PFloat.le, PFloat.gt, PFloat.lt]

/-- Witness for claim C2, evaluating variant B at `total = 4000`,
`diff = 1.5`, `ratio = 2`. -/
theorem claim_C2_witness :
    (3000 : ℤ) < 4000 ∧ (1 : ℝ) < 1.5 ∧ (1 : ℝ) < 2 ∧
      CheckStrand.determine_strandedness 4000 (.val 1.5) (.val 2) = "fr-firststrand" :=
  ⟨by norm_num, by norm_num, by norm_num,
    (claim_C2 4000 1.5 2).2.2.1 (by norm_num) (by norm_num) (by norm_num)⟩

/-- Counterexample to claim C10 as stated: variant B called with a NaN
difference and `total = 3001 > 3000` and ratio `2.0` returns
`fr-firststrand`, not `fr-secondstrand`. -/
theorem claim_C10_counterexample :
    CheckStrand.determine_strandedness 3001 .nan (.val 2) = "fr-firststrand" ∧
      "fr-firststrand" ≠ "fr-secondstrand" := by
  constructor
  · norm_num [CheckStrand.determine_strandedness, PFloat.le, PFloat.gt, PFloat.lt]
  · decide

/-- Claim C10 (amended): with a NaN difference and `total > 3000`, every
comparison against the NaN evaluates false, so variant A falls through to
`fr-secondstrand`, while variant B skips the `fr-unstranded` branch and
resolves on the ratio — `fr-firststrand` when the ratio compares above 1,
else `fr-secondstrand` (so `fr-secondstrand` when the ratio is NaN too).
This NaN branch is unreachable through `analyze_strand_bias`: the relative
difference it passes is NaN exactly when `total = 0`, which the
`total ≤ 3000` gate catches first, yielding `insufficient-data`. -/
theorem claim_C10 (total : ℤ) (ratio : PFloat) (fwd rev : ℕ) (name : String) :
    (3000 < total →
      BinCheckStrand.determine_strandedness total .nan = "fr-secondstrand") ∧
    (3000 < total → ratio.gt (.val 1) = true →
      CheckStrand.determine_strandedness total .nan ratio = "fr-firststrand") ∧
    (3000 < total → ratio.gt (.val 1) = false →
      CheckStrand.determine_strandedness total .nan ratio = "fr-secondstrand") ∧
    (CheckStrand.compute_relative_difference fwd rev = .nan ↔ fwd + rev = 0) ∧
    (BinCheckStrand.compute_relative_difference fwd rev = .nan ↔ fwd + rev = 0) ∧
    (fwd + rev = 0 →
      (CheckStrand.analyze_strand_bias fwd rev name).strandedness = "insufficient-data") ∧
    (fwd + rev = 0 →
      (BinCheckStrand.analyze_strand_bias fwd rev name).strandedness = "insufficient-data") := by
  refine ⟨fun h1 => ?_, fun h1 h2 => ?_, fun h1 h2 => ?_, ?_, ?_, fun h0 => ?_, fun h0 => ?_⟩
  · simp [BinCheckStrand.determine_strandedness, PFloat.abs, PFloat.le,
      PFloat.gt, PFloat.lt, not_le.mpr h1]
  · simp [CheckStrand.determine_strandedness, PFloat.le, not_le.mpr h1, h2]
  · simp [CheckStrand.determine_strandedness, PFloat.le, not_le.mpr h1, h2]
  · constructor
    · intro h
      by_contra h0
      simp [CheckStrand.compute_relative_difference, h0] at h
    · intro h0
      simp [CheckStrand.compute_relative_difference, h0]
  · constructor
    · intro h
      by_contra h0
      simp [BinCheckStrand.compute_relative_difference, h0] at h
    · intro h0
      simp [BinCheckStrand.compute_relative_difference, h0]
  · obtain ⟨hf, hr⟩ : fwd = 0 ∧ rev = 0 := by omega
    subst hf; subst hr
    norm_num [CheckStrand.analyze_strand_bias, CheckStrand.determine_strandedness]
  · obtain ⟨hf, hr⟩ : fwd = 0 ∧ rev = 0 := by omega
    subst hf; subst hr
    norm_num [BinCheckStrand.analyze_strand_bias, BinCheckStrand.determine_strandedness]

/-! ## Claims about the metric functions -/

/-- Claim C5: for all non-negative integers `f, r` with `f + r > 0`, the
signed relative difference (`bin/check_strand.py`) is antisymmetric, and the
unsigned relative difference (`check_strand.py`) is its absolute value. -/
theorem claim_C5 (f r : ℕ) (h : 0 < f + r) :
    ∃ x : ℝ, BinCheckStrand.compute_relative_difference f r = .val x ∧
      BinCheckStrand.compute_relative_difference r f = .val (-x) ∧
      CheckStrand.compute_relative_difference f r = .val |x| := by
  have h0 : f + r ≠ 0 := h.ne'
  have h1 : r + f ≠ 0 := by omega
  have hc : (0 : ℝ) < (f : ℝ) + (r : ℝ) := by exact_mod_cast h
  refine ⟨((f : ℝ) - (r : ℝ)) / (((f : ℝ) + (r : ℝ)) / 2), ?_, ?_, ?_⟩
  · rw [BinCheckStrand.compute_relative_difference, if_neg h0]
  · rw [BinCheckStrand.compute_relative_difference, if_neg h1]
    simp only [PFloat.val.injEq]
    ring
  · rw [CheckStrand.compute_relative_difference, if_neg h0]
    simp only [PFloat.val.injEq]
    rw [abs_div, abs_of_pos (by linarith : (0 : ℝ) < ((f : ℝ) + (r : ℝ)) / 2)]

/-- Witness for claim C5 at `(f, r) = (3, 1)`. -/
theorem claim_C5_witness :
    0 < 3 + 1 ∧
      ∃ x : ℝ, BinCheckStrand.compute_relative_difference 3 1 = .val x ∧
        BinCheckStrand.compute_relative_difference 1 3 = .val (-x) ∧
        CheckStrand.compute_relative_difference 3 1 = .val |x| :=
  ⟨by norm_num, claim_C5 3 1 (by norm_num)⟩

/-- Claim C6: in both `check_strand.py` and `bin/check_strand.py`, the
forward and reverse ratios returned by `compute_proportions` sum exactly to 1
whenever `f + r > 0`, and both are exactly 0 when `f + r = 0`. -/
theorem claim_C6 (f r : ℕ) :
    (0 < f + r →
      (CheckStrand.compute_proportions f r).1 +
        (CheckStrand.compute_proportions f r).2.1 = 1 ∧
      (BinCheckStrand.compute_proportions f r).1 +
        (BinCheckStrand.compute_proportions f r).2 = 1) ∧
    ((CheckStrand.compute_proportions 0 0).1 = 0 ∧
      (CheckStrand.compute_proportions 0 0).2.1 = 0) ∧
    BinCheckStrand.compute_proportions 0 0 = (0, 0) := by
  refine ⟨fun h => ?_, by norm_num [CheckStrand.compute_proportions], by
    norm_num [BinCheckStrand.compute_proportions]⟩
  have h0 : f + r ≠ 0 := h.ne'
  have hc : ((f : ℝ) + (r : ℝ)) ≠ 0 := by
    have : (0 : ℝ) < (f : ℝ) + (r : ℝ) := by exact_mod_cast h
    linarith
  constructor
  · rw [CheckStrand.compute_proportions, if_neg h0]
    field_simp
  · rw [BinCheckStrand.compute_proportions, if_neg h0]
    field_simp

/-- Witness for claim C6 at `(f, r) = (1, 2)`. -/
theorem claim_C6_witness :
    0 < 1 + 2 ∧
      ((CheckStrand.compute_proportions 1 2).1 +
          (CheckStrand.compute_proportions 1 2).2.1 = 1 ∧
        (BinCheckStrand.compute_proportions 1 2).1 +
          (BinCheckStrand.compute_proportions 1 2).2 = 1) :=
  ⟨by norm_num, (claim_C6 1 2).1 (by norm_num)⟩

/-- Claim C9: the three chi-square implementations agree — for every pair of
counts, `compute_chi_test` of `check_strand.py`, `compute_chi_test` of
`bin/check_strand.py`, and `compute_chi2_test` of
`bin/check_strand_step1M_withCount.py` return equal `(chi2, p)` pairs, the
count-based factoring `((f-e)² + (r-e)²)/e` notwithstanding, and all return
`(nan, nan)` at total 0. -/
theorem claim_C9 (f r : ℕ) :
    CheckStrand.compute_chi_test f r = BinCheckStrand.compute_chi_test f r ∧
    BinCheckStrand.compute_chi_test f r = Step1MWithCount.compute_chi2_test f r ∧
    CheckStrand.compute_chi_test 0 0 = (.nan, .nan) := by
  refine ⟨rfl, ?_, by norm_num [CheckStrand.compute_chi_test]⟩
  by_cases h : f + r = 0
  · simp [BinCheckStrand.compute_chi_test, Step1MWithCount.compute_chi2_test, h]
  · have hval : BinCheckStrand.chi2_value f r =
        (((f : ℝ) - ((f : ℝ) + (r : ℝ)) / 2) ^ 2 +
          ((r : ℝ) - ((f : ℝ) + (r : ℝ)) / 2) ^ 2) / (((f : ℝ) + (r : ℝ)) / 2) := by
      rw [BinCheckStrand.chi2_value, div_add_div_same]
    simp [BinCheckStrand.compute_chi_test, Step1MWithCount.compute_chi2_test, h, hval]

/-- The Bayes factor of `check_strand.py` at a non-zero total, in closed
form. -/
theorem bayes_factor_val (fwd rev : ℕ) (h : fwd + rev ≠ 0) :
    CheckStrand.compute_bayes_factor fwd rev =
      .val (Real.exp (((fwd : ℝ) + (rev : ℝ)) * Real.log 0.5 -
        (lgamma ((fwd : ℝ) + 1) + lgamma ((rev : ℝ) + 1) -
          lgamma ((fwd : ℝ) + (rev : ℝ) + 2)))) := by
  rw [CheckStrand.compute_bayes_factor, if_neg h]
  simp only [PFloat.val.injEq]
  norm_num
  ring_nf

/-- Claim C4: for every pair of counts with positive total, the Bayes factor
of `check_strand.py` is strictly positive and equals
`exp ((a + b - 2)·log 0.5 - (lgamma a + lgamma b - lgamma (a + b)))` with
`a = fwd + 1`, `b = rev + 1` — a single exponentiation of a log-space
value. -/
theorem claim_C4 (fwd rev : ℕ) (h : 0 < fwd + rev) :
    ∃ v : ℝ, CheckStrand.compute_bayes_factor fwd rev = .val v ∧ 0 < v ∧
      v = Real.exp ((((fwd : ℝ) + 1) + ((rev : ℝ) + 1) - 2) * Real.log 0.5 -
        (lgamma ((fwd : ℝ) + 1) + lgamma ((rev : ℝ) + 1) -
          lgamma (((fwd : ℝ) + 1) + ((rev : ℝ) + 1)))) := by
  refine ⟨_, bayes_factor_val fwd rev h.ne', Real.exp_pos _, ?_⟩
  congr 1
  ring_nf

/-- Witness for claim C4 at `(fwd, rev) = (1, 0)`. -/
theorem claim_C4_witness :
    0 < 1 + 0 ∧
      ∃ v : ℝ, CheckStrand.compute_bayes_factor 1 0 = .val v ∧ 0 < v ∧
        v = Real.exp ((((1 : ℕ) : ℝ) + 1 + (((0 : ℕ) : ℝ) + 1) - 2) * Real.log 0.5 -
          (lgamma (((1 : ℕ) : ℝ) + 1) + lgamma (((0 : ℕ) : ℝ) + 1) -
            lgamma ((((1 : ℕ) : ℝ) + 1) + (((0 : ℕ) : ℝ) + 1)))) :=
  ⟨by norm_num, claim_C4 1 0 (by norm_num)⟩

/-- For `k ≤ n`, spreading a balanced factorial product:
`n! · n! ≤ (n+k)! · (n-k)!`. -/
theorem factorial_sq_le_shift (n k : ℕ) (hk : k ≤ n) :
    Nat.factorial n * Nat.factorial n ≤ Nat.factorial (n + k) * Nat.factorial (n - k) := by
  induction k with
  | zero => simp
  | succ k ih =>
    have hk1 : k ≤ n := by omega
    refine (ih hk1).trans ?_
    have h1 : n - k = (n - (k + 1)) + 1 := by omega
    have h2 : n + (k + 1) = (n + k) + 1 := by omega
    rw [h1, h2, Nat.factorial_succ, Nat.factorial_succ]
    calc Nat.factorial (n + k) * ((n - (k + 1) + 1) * Nat.factorial (n - (k + 1)))
        = (n - (k + 1) + 1) * (Nat.factorial (n + k) * Nat.factorial (n - (k + 1))) := by
          ring
      _ ≤ (n + k + 1) * (Nat.factorial (n + k) * Nat.factorial (n - (k + 1))) :=
          Nat.mul_le_mul (by omega) (le_refl _)
      _ = (n + k + 1) * Nat.factorial (n + k) * Nat.factorial (n - (k + 1)) := by ring

/-- For a fixed total `2n`, the balanced factorial product is minimal:
`n! · n! ≤ a! · b!` whenever `a + b = 2n`. -/
theorem factorial_sq_le (n a b : ℕ) (hab : a + b = 2 * n) :
    Nat.factorial n * Nat.factorial n ≤ Nat.factorial a * Nat.factorial b := by
  rcases le_total n a with h | h
  · have hk : a - n ≤ n := by omega
    have := factorial_sq_le_shift n (a - n) hk
    rwa [show n + (a - n) = a by omega, show n - (a - n) = b by omega] at this
  · have hk : b - n ≤ n := by omega
    have := factorial_sq_le_shift n (b - n) hk
    rw [show n + (b - n) = b by omega, show n - (b - n) = a by omega] at this
    rwa [Nat.mul_comm (Nat.factorial b) (Nat.factorial a)] at this

/-- `lgamma` at a shifted natural is the log of a factorial. -/
theorem lgamma_nat_add_one (m : ℕ) : lgamma ((m : ℝ) + 1) = Real.log ((Nat.factorial m : ℕ) : ℝ) := by
  rw [lgamma, Real.Gamma_nat_eq_factorial]

/-- Claim C7: the Bayes factor of `check_strand.py` is maximal at balance —
for every `n > 0` and every split `a + b = 2n` of the same total,
`bayes_factor (a, b) ≤ bayes_factor (n, n)`. -/
theorem claim_C7 (n a b : ℕ) (hn : 0 < n) (hab : a + b = 2 * n) :
    ∃ u v : ℝ, CheckStrand.compute_bayes_factor n n = .val u ∧
      CheckStrand.compute_bayes_factor a b = .val v ∧ v ≤ u := by
  refine ⟨_, _, bayes_factor_val n n (by omega), bayes_factor_val a b (by omega), ?_⟩
  apply Real.exp_le_exp.mpr
  have hfn : (0 : ℝ) < ((Nat.factorial n : ℕ) : ℝ) := by exact_mod_cast Nat.factorial_pos n
  have hfa : (0 : ℝ) < ((Nat.factorial a : ℕ) : ℝ) := by exact_mod_cast Nat.factorial_pos a
  have hfb : (0 : ℝ) < ((Nat.factorial b : ℕ) : ℝ) := by exact_mod_cast Nat.factorial_pos b
  have hsum : (a : ℝ) + (b : ℝ) = (n : ℝ) + (n : ℝ) := by
    have := congrArg (fun m : ℕ => (m : ℝ)) hab
    push_cast at this
    linarith
  have hsumL : ((a : ℝ) + (b : ℝ)) * Real.log 0.5 =
      ((n : ℝ) + (n : ℝ)) * Real.log 0.5 := by rw [hsum]
  have hsumG : lgamma ((a : ℝ) + (b : ℝ) + 2) = lgamma ((n : ℝ) + (n : ℝ) + 2) := by
    rw [hsum]
  have hlog : Real.log ((Nat.factorial n : ℕ) : ℝ) + Real.log ((Nat.factorial n : ℕ) : ℝ) ≤
      Real.log ((Nat.factorial a : ℕ) : ℝ) + Real.log ((Nat.factorial b : ℕ) : ℝ) := by
    rw [← Real.log_mul hfn.ne' hfn.ne', ← Real.log_mul hfa.ne' hfb.ne']
    apply (Real.log_le_log_iff (by positivity) (by positivity)).mpr
    exact_mod_cast factorial_sq_le n a b hab
  have hG : lgamma ((n : ℝ) + 1) + lgamma ((n : ℝ) + 1) ≤
      lgamma ((a : ℝ) + 1) + lgamma ((b : ℝ) + 1) := by
    simp only [lgamma_nat_add_one]
    exact hlog
  linarith [hsumL, hsumG, hG]

/-- Witness for claim C7 at `n = 1`, split `(2, 0)`. -/
theorem claim_C7_witness :
    0 < 1 ∧ 2 + 0 = 2 * 1 ∧
      ∃ u v : ℝ, CheckStrand.compute_bayes_factor 1 1 = .val u ∧
        CheckStrand.compute_bayes_factor 2 0 = .val v ∧ v ≤ u :=
  ⟨by norm_num, by norm_num, claim_C7 1 2 0 (by norm_num) (by norm_num)⟩

/-- Claim C3: the degenerate observation `(0, 0)` raises nowhere and every
metric takes its sentinel value — in the `analyze_strand_bias` bundle of
`check_strand.py`: ratios 0, `f2r_ratio`, the unsigned relative difference,
chi2, p-value, Cohen's h, Cramér's V and the Bayes factor NaN, epsilon,
Hellinger and entropy 0, log2 fold change finite and equal to 0; the signed
relative difference of `bin/check_strand.py` is NaN as well — and the
classification routed through the total gate is `insufficient-data` in both
scripts. -/
theorem claim_C3 (name : String) :
    (CheckStrand.analyze_strand_bias 0 0 name).fwd_ratio = 0 ∧
    (CheckStrand.analyze_strand_bias 0 0 name).rev_ratio = 0 ∧
    (CheckStrand.analyze_strand_bias 0 0 name).f2r_ratio = .nan ∧
    (CheckStrand.analyze_strand_bias 0 0 name).relative_diff = .nan ∧
    BinCheckStrand.compute_relative_difference 0 0 = .nan ∧
    (BinCheckStrand.analyze_strand_bias 0 0 name).relative_diff = .nan ∧
    (BinCheckStrand.analyze_strand_bias 0 0 name).strandedness = "insufficient-data" ∧
    (CheckStrand.analyze_strand_bias 0 0 name).chi2 = .nan ∧
    (CheckStrand.analyze_strand_bias 0 0 name).p_value = .nan ∧
    (CheckStrand.analyze_strand_bias 0 0 name).cohens_h = .nan ∧
    (CheckStrand.analyze_strand_bias 0 0 name).cramers_v = .nan ∧
    (CheckStrand.analyze_strand_bias 0 0 name).bayes_factor = .nan ∧
    (CheckStrand.analyze_strand_bias 0 0 name).epsilon = 0 ∧
    (CheckStrand.analyze_strand_bias 0 0 name).hellinger = 0 ∧
    (CheckStrand.analyze_strand_bias 0 0 name).entropy = 0 ∧
    (CheckStrand.analyze_strand_bias 0 0 name).log2_f2r = 0 ∧
    (CheckStrand.analyze_strand_bias 0 0 name).strandedness = "insufficient-data" := by
  norm_num [CheckStrand.analyze_strand_bias, CheckStrand.compute_proportions,
    CheckStrand.compute_relative_difference, CheckStrand.compute_chi_test,
    CheckStrand.compute_cohens_h, CheckStrand.compute_cramers_v,
    CheckStrand.compute_bayes_factor, CheckStrand.compute_effect_size_epsilon,
    CheckStrand.compute_hellinger_distance, CheckStrand.compute_normalized_entropy,
    CheckStrand.compute_f2r_ratio_logfc, CheckStrand.determine_strandedness,
    BinCheckStrand.analyze_strand_bias, BinCheckStrand.compute_proportions,
    BinCheckStrand.compute_relative_difference, BinCheckStrand.compute_chi_test,
    BinCheckStrand.determine_strandedness, Real.logb_one]

/-- Witness for the amended claim C10, at `total = 3001`, NaN difference,
NaN ratio (the values the pipeline would produce at `total = 0`), and at the
degenerate observation `(0, 0)`. -/
theorem claim_C10_witness :
    (3000 : ℤ) < 3001 ∧ PFloat.gt PFloat.nan (.val 1) = false ∧ 0 + 0 = 0 ∧
      CheckStrand.determine_strandedness 3001 .nan .nan = "fr-secondstrand" ∧
      (CheckStrand.analyze_strand_bias 0 0 "x").strandedness = "insufficient-data" :=
  ⟨by norm_num, rfl, rfl,
    (claim_C10 3001 .nan 0 0 "x").2.2.1 (by norm_num) rfl,
    (claim_C10 3001 .nan 0 0 "x").2.2.2.2.2.1 rfl⟩


/-! ## Claim C8: normalized entropy -/

/-- Lower log bound `1 - x⁻¹ ≤ log x` for positive `x`. -/
theorem one_sub_inv_le_log (x : ℝ) (hx : 0 < x) : 1 - x⁻¹ ≤ Real.log x := by
  have h := Real.log_le_sub_one_of_pos (inv_pos.mpr hx)
  rw [Real.log_inv] at h
  linarith

/-- Gibbs-style bound: `x - m ≤ x · (log x - log m)` for positive `x, m`. -/
theorem mul_log_sub_ge (x m : ℝ) (hx : 0 < x) (hm : 0 < m) :
    x - m ≤ x * (Real.log x - Real.log m) := by
  have h1 : 1 - (x / m)⁻¹ ≤ Real.log (x / m) := one_sub_inv_le_log _ (by positivity)
  have h2 : Real.log (x / m) = Real.log x - Real.log m := Real.log_div hx.ne' hm.ne'
  have h3 : (x / m)⁻¹ = m / x := inv_div x m
  rw [h2, h3] at h1
  have h4 := mul_le_mul_of_nonneg_left h1 hx.le
  have h5 : x * (1 - m / x) = x - m := by field_simp
  linarith [h4, h5.le, h5.ge]

/-- Two-point entropy bound: when `p, q > 0` and `p + q ≥ 1`,
`-(p log p) - q log q ≤ log 2`. -/
theorem entropy_sum_le_log_two (p q : ℝ) (hp : 0 < p) (hq : 0 < q) (hs : 1 ≤ p + q) :
    -(p * Real.log p) - q * Real.log q ≤ Real.log 2 := by
  have hs0 : (0:ℝ) < p + q := by linarith
  have hs2 : (0:ℝ) < (p + q) / 2 := by linarith
  have hlog2 : Real.log 2 ≤ 1 := by
    have := Real.log_le_sub_one_of_pos (by norm_num : (0:ℝ) < 2)
    linarith
  have hA := mul_log_sub_ge p ((p + q) / 2) hp hs2
  have hB := mul_log_sub_ge q ((p + q) / 2) hq hs2
  have hC := mul_log_sub_ge (p + q) 1 hs0 one_pos
  rw [Real.log_one] at hC
  have hD : Real.log ((p + q) / 2) = Real.log (p + q) - Real.log 2 :=
    Real.log_div hs0.ne' (by norm_num)
  rw [hD] at hA hB
  have hE : 0 ≤ (p + q - 1) * (1 - Real.log 2) :=
    mul_nonneg (by linarith) (by linarith)
  nlinarith [hA, hB, hC, hE]

/-- The normalized entropy of `check_strand.py` always lies in `[0, 1]`. -/
theorem normalized_entropy_bounds (f r : ℕ) :
    0 ≤ CheckStrand.compute_normalized_entropy f r ∧
      CheckStrand.compute_normalized_entropy f r ≤ 1 := by
  rw [CheckStrand.compute_normalized_entropy]
  by_cases h : f + r = 0
  · simp [h]
  · rw [if_neg h]
    have ht : (0:ℝ) < (f:ℝ) + (r:ℝ) := by
      have h1 : 0 < f + r := Nat.pos_of_ne_zero h
      exact_mod_cast h1
    set p := max ((f : ℝ) / ((f : ℝ) + (r : ℝ))) 1e-10 with hp_def
    set q := max ((r : ℝ) / ((f : ℝ) + (r : ℝ))) 1e-10 with hq_def
    have hp0 : (0:ℝ) < p := lt_of_lt_of_le (by norm_num) (le_max_right _ _)
    have hq0 : (0:ℝ) < q := lt_of_lt_of_le (by norm_num) (le_max_right _ _)
    have hf0 : (0:ℝ) ≤ (f:ℝ) := Nat.cast_nonneg f
    have hr0 : (0:ℝ) ≤ (r:ℝ) := Nat.cast_nonneg r
    have hp1 : p ≤ 1 := by
      apply max_le _ (by norm_num)
      rw [div_le_one ht]
      linarith
    have hq1 : q ≤ 1 := by
      apply max_le _ (by norm_num)
      rw [div_le_one ht]
      linarith
    have hsum : 1 ≤ p + q := by
      have h1 : (f : ℝ) / ((f : ℝ) + (r : ℝ)) ≤ p := le_max_left _ _
      have h2 : (r : ℝ) / ((f : ℝ) + (r : ℝ)) ≤ q := le_max_left _ _
      have h3 : (f : ℝ) / ((f : ℝ) + (r : ℝ)) + (r : ℝ) / ((f : ℝ) + (r : ℝ)) = 1 := by
        field_simp
      linarith
    have hl2 : (0:ℝ) < Real.log 2 := Real.log_pos (by norm_num)
    constructor
    · have t1 : Real.logb 2 p ≤ 0 := Real.logb_nonpos (by norm_num) hp0.le hp1
      have t2 : Real.logb 2 q ≤ 0 := Real.logb_nonpos (by norm_num) hq0.le hq1
      have u1 : 0 ≤ p * -Real.logb 2 p := mul_nonneg hp0.le (neg_nonneg.mpr t1)
      have u2 : 0 ≤ q * -Real.logb 2 q := mul_nonneg hq0.le (neg_nonneg.mpr t2)
      simp only [div_one]
      nlinarith [u1, u2]
    · have key := entropy_sum_le_log_two p q hp0 hq0 hsum
      simp only [div_one, Real.logb]
      have heq : -(p * (Real.log p / Real.log 2)) - q * (Real.log q / Real.log 2) =
          (-(p * Real.log p) - q * Real.log q) / Real.log 2 := by ring
      rw [heq, div_le_one hl2]
      exact key

/-- The normalized entropy of `check_strand.py` is exactly 1 on a balanced
observation. -/
theorem normalized_entropy_balanced (n : ℕ) (hn : 0 < n) :
    CheckStrand.compute_normalized_entropy n n = 1 := by
  rw [CheckStrand.compute_normalized_entropy, if_neg (by omega : ¬ n + n = 0)]
  have hn0 : (0:ℝ) < (n:ℝ) := by exact_mod_cast hn
  have hhalf : (n : ℝ) / ((n : ℝ) + (n : ℝ)) = 1 / 2 := by
    rw [div_eq_iff (by linarith : (n:ℝ) + (n:ℝ) ≠ 0)]
    ring
  have hmax : max ((1:ℝ)/2) 1e-10 = 1/2 := max_eq_left (by norm_num)
  have hl2 : Real.log 2 ≠ 0 := (Real.log_pos (by norm_num)).ne'
  have hlogb : Real.logb 2 ((1:ℝ)/2) = -1 := by
    rw [Real.logb, Real.log_div one_ne_zero two_ne_zero, Real.log_one]
    field_simp
  simp only [hhalf, hmax, hlogb]
  norm_num

/-- On a one-sided observation `(n, 0)` with `n > 0`, the normalized entropy
of `check_strand.py` is the constant `-(1e-10 · log2 1e-10)`, independent of
`n`: the clamp fixes the reverse proportion at `1e-10`. -/
theorem normalized_entropy_onesided (n : ℕ) (hn : 0 < n) :
    CheckStrand.compute_normalized_entropy n 0 = -(1e-10 * Real.logb 2 1e-10) := by
  rw [CheckStrand.compute_normalized_entropy, if_neg (by omega : ¬ n + 0 = 0)]
  have hn0 : (0:ℝ) < (n:ℝ) := by exact_mod_cast hn
  have h1 : (n : ℝ) / ((n : ℝ) + ((0:ℕ) : ℝ)) = 1 := by
    rw [Nat.cast_zero, add_zero, div_self hn0.ne']
  have h2 : ((0:ℕ) : ℝ) / ((n : ℝ) + ((0:ℕ) : ℝ)) = 0 := by
    rw [Nat.cast_zero, zero_div]
  have hmax1 : max (1:ℝ) 1e-10 = 1 := max_eq_left (by norm_num)
  have hmax2 : max (0:ℝ) 1e-10 = 1e-10 := max_eq_right (by norm_num)
  simp only [h1, h2, hmax1, hmax2, Real.logb_one]
  norm_num

/-- The constant value of the entropy on one-sided observations is strictly
positive (about `3.32e-9`). -/
theorem normalized_entropy_onesided_pos : (0:ℝ) < -(1e-10 * Real.logb 2 1e-10) := by
  have h : Real.logb 2 (1e-10 : ℝ) < 0 :=
    Real.logb_neg (by norm_num) (by norm_num) (by norm_num)
  nlinarith [h]

/-- Counterexample to claim C8 as stated: the sequence
`n ↦ normalized_entropy (n, 0)` does not tend to 0 — it is eventually the
positive constant `-(1e-10 · log2 1e-10) ≈ 3.32e-9`. -/
theorem claim_C8_counterexample :
    ¬ Filter.Tendsto (fun n : ℕ => CheckStrand.compute_normalized_entropy n 0)
      Filter.atTop (nhds 0) := by
  intro hcontra
  have hconst : Filter.Tendsto (fun n : ℕ => CheckStrand.compute_normalized_entropy n 0)
      Filter.atTop (nhds (-(1e-10 * Real.logb 2 1e-10))) := by
    refine Filter.Tendsto.congr' ?_ tendsto_const_nhds
    filter_upwards [Filter.eventually_ge_atTop 1] with n hn
    exact (normalized_entropy_onesided n hn).symm
  have huniq := tendsto_nhds_unique hcontra hconst
  linarith [normalized_entropy_onesided_pos, huniq.ge, huniq.le]

/-- Claim C8 (amended): `normalized_entropy (n, n) = 1` exactly for every
`n > 0`; for `reverse = 0` and `n > 0` the value is the constant
`-(1e-10 · log2 1e-10)` — strictly positive and independent of `n`, so it
does not tend to 0 — and it is never negative; in all cases the result lies
in `[0, 1]`, the proportions being clamped to the `1e-10` floor before the
log2. -/
theorem claim_C8 (n f r : ℕ) (hn : 0 < n) :
    CheckStrand.compute_normalized_entropy n n = 1 ∧
    CheckStrand.compute_normalized_entropy n 0 = -(1e-10 * Real.logb 2 1e-10) ∧
    (0:ℝ) < -(1e-10 * Real.logb 2 1e-10) ∧
    0 ≤ CheckStrand.compute_normalized_entropy f r ∧
    CheckStrand.compute_normalized_entropy f r ≤ 1 :=
  ⟨normalized_entropy_balanced n hn, normalized_entropy_onesided n hn,
    normalized_entropy_onesided_pos, (normalized_entropy_bounds f r).1,
    (normalized_entropy_bounds f r).2⟩

/-- Witness for the amended claim C8 at `n = 1`, `(f, r) = (2, 3)`. -/
theorem claim_C8_witness :
    0 < 1 ∧
      (CheckStrand.compute_normalized_entropy 1 1 = 1 ∧
        CheckStrand.compute_normalized_entropy 1 0 = -(1e-10 * Real.logb 2 1e-10) ∧
        (0:ℝ) < -(1e-10 * Real.logb 2 1e-10) ∧
        0 ≤ CheckStrand.compute_normalized_entropy 2 3 ∧
        CheckStrand.compute_normalized_entropy 2 3 ≤ 1) :=
  ⟨by norm_num, claim_C8 1 2 3 (by norm_num)⟩
